import Mathlib

/-!
Shallow embedding of the repository test-orchestration pipeline
(src/repo_clone_and_execute_tests.py) of the wrkhq/eval project.

External effects (the docker liveness probe, git clone outcomes, the
docker-compose build, the sandbox run, and the contents of the results
artifact) are supplied by an explicit environment `Env`.  Each pipeline
operation returns its result together with a list of `Event`s recording
which external operations it invoked, so that claims about what is or is
not invoked become statements about the trace.  A Python exception that
the code does not catch is modelled by returning `none`.
-/

namespace RepoEval

/-- Model of a parsed JSON value as produced by json.load.  Numbers are
modelled as integers: every count field of the results-artifact wire
contract is an integer, and no claim touches the float duration field. -/
inductive Json where
  | null : Json
  | bool (b : Bool) : Json
  | num (n : Int) : Json
  | str (s : String) : Json
  | arr (elems : List Json) : Json
  | obj (fields : List (String × Json)) : Json

/-- Python dict.get with a default: first binding of the key, else the
default (json.load produces duplicate-free objects). -/
def objGetD (fields : List (String × Json)) (key : String) (dflt : Json) : Json :=
  match fields with
  | [] => dflt
  | (k, v) :: rest => if k = key then v else objGetD rest key dflt

/-- Numeric view of a Python value: ints are numbers, bools are 0 or 1
(Python bool is an int subtype); anything else is not a number. -/
def pyAsNum : Json → Option Int
  | Json.num n => some n
  | Json.bool b => some (if b then 1 else 0)
  | _ => none

/-- Python equality test value == 0: true exactly for numeric zero; a
non-number compared to 0 with == is False, never an error. -/
def pyEqZero (j : Json) : Bool :=
  match pyAsNum j with
  | some n => n == 0
  | none => false

/-- Success rule applied to the parsed results data
(repo_clone_and_execute_tests.py lines 176-184): only a dict is
inspected; counts are fetched with default 0 and the run is a success
iff total > 0 and failed == 0 and error == 0.  Python evaluates
total_count > 0 first; that comparison raises TypeError (modelled as
none) when the total field holds a non-number.  The equality
comparisons never raise. -/
def test_success_of_data : Json → Option Bool
  | Json.obj fields =>
    let failedCount := objGetD fields "failed" (Json.num 0)
    let errorCount := objGetD fields "error" (Json.num 0)
    let totalCount := objGetD fields "total" (Json.num 0)
    match pyAsNum totalCount with
    | none => none
    | some t => some (if 0 < t then pyEqZero failedCount && pyEqZero errorCount else false)
  | _ => some false

/-- Outcome record of one repository run, the dict returned by
clone_and_test_repo / _run_tests_with_compose.  Keys absent from a given
Python dict are `none`. -/
structure RunResult where
  repoName : String
  success : Bool
  exitCode : Int
  output : Option String := none
  errorOutput : Option String := none
  resultsData : Option Json := none
  error : Option String := none

/-- State of the results artifact file after the sandbox run: missing,
present but rejected by json.load with a JSONDecodeError message, or
parsed to a JSON value. -/
inductive ArtifactState where
  | absent : ArtifactState
  | malformed (msg : String) : ArtifactState
  | parsed (j : Json) : ArtifactState

/-- External operations the pipeline can invoke, recorded in order. -/
inductive Event where
  | removeWorkspace (repo : String) (ok : Bool) : Event
  | gitClone (repo : String) : Event
  | composeBuild (repo : String) : Event
  | composeRun (repo : String) : Event
deriving DecidableEq

/-- Environment of external outcomes: the docker liveness probe taken
once at construction, whether a stale workspace directory exists per
repository, the outcome of each directory-removal attempt, whether git
clone succeeds, whether docker-compose build raises CalledProcessError
(and with which returncode and stderr), the sandbox process exit code
and captured streams, and the state of the results artifact. -/
structure Env where
  dockerAvailable : Bool
  workspaceExistsFor : String → Bool
  removeAttemptOk : String → Nat → Bool
  cloneOk : String → Bool
  composeBuildFail : String → Option (Int × String)
  runProcExitCode : String → Int
  runStdout : String → String
  runStderr : String → String
  artifact : String → ArtifactState

/-- Accounting of one _safe_remove_directory call: final outcome, number
of rmtree attempts, number of recursive write-permission-clearing
sweeps, and number of one-second backoff sleeps. -/
structure RemoveResult where
  success : Bool
  attempts : Nat
  chmodSweeps : Nat
  sleeps : Nat
deriving DecidableEq

/-- Retry loop body of _safe_remove_directory (lines 65-92): on each
iteration clear write-protection bits on every contained file, then try
to remove the tree; on failure sleep one second and retry unless this
was the last allowed attempt, in which case return failure.  The
attempt outcomes come from the oracle attemptOk. -/
def safe_remove_go (attemptOk : Nat → Bool) (attempt remaining : Nat) : RemoveResult :=
  match remaining with
  | 0 => ⟨false, 0, 0, 0⟩
  | Nat.succ r =>
    if attemptOk attempt then
      ⟨true, 1, 1, 0⟩
    else if r = 0 then
      ⟨false, 1, 1, 0⟩
    else
      let res := safe_remove_go attemptOk (attempt + 1) r
      ⟨res.success, res.attempts + 1, res.chmodSweeps + 1, res.sleeps + 1⟩

/-- Embedding of _safe_remove_directory: immediate success on a missing
path, otherwise the bounded retry loop with max_retries = 3.  The
caught exceptions (OSError, PermissionError) make the function total:
it returns a value, never raises. -/
def safe_remove_directory (pathExists : Bool) (attemptOk : Nat → Bool) : RemoveResult :=
  if pathExists then safe_remove_go attemptOk 0 3 else ⟨true, 0, 0, 0⟩

/-- Embedding of _clone_repo_locally (lines 94-117): if the workspace
directory exists, attempt its tolerant removal, and on removal failure
warn and continue anyway; then invoke git clone, returning whether it
succeeded.  The first component is the returned bool, the second the
trace of external operations. -/
def clone_repo_locally (env : Env) (org_name repo_name : String) : Bool × List Event :=
  let removalEvents :=
    if env.workspaceExistsFor repo_name then
      [Event.removeWorkspace repo_name
        (safe_remove_directory true (env.removeAttemptOk repo_name)).success]
    else []
  (env.cloneOk repo_name, removalEvents ++ [Event.gitClone repo_name])

/-- Embedding of _run_tests_with_compose (lines 119-211): build the
image (a CalledProcessError there is caught and converted to an error
result carrying the returncode of the failed process), run the sandbox
process capturing exit code and streams, then read the results
artifact.  A missing file and a JSON parse failure each produce an
error dict in resultsData with success false.  A parsed non-dict leaves
success false and resultsData as the parsed value.  A parsed dict with
a non-numeric total makes the comparison total_count > 0 raise an
uncaught TypeError, modelled as `none`. -/
def run_tests_with_compose (env : Env) (repo_name : String) :
    Option RunResult × List Event :=
  match env.composeBuildFail repo_name with
  | some p =>
    (some { repoName := repo_name, success := false,
            error := some ("Docker compose failed: " ++ p.2), exitCode := p.1 },
     [Event.composeBuild repo_name])
  | none =>
    let code := env.runProcExitCode repo_name
    let out := env.runStdout repo_name
    let errOut := env.runStderr repo_name
    let trace := [Event.composeBuild repo_name, Event.composeRun repo_name]
    match env.artifact repo_name with
    | ArtifactState.absent =>
      (some { repoName := repo_name, success := false, exitCode := code,
              output := some out, errorOutput := some errOut,
              resultsData := some (Json.obj [("error", Json.str "Results file not created")]),
              error := none }, trace)
    | ArtifactState.malformed msg =>
      (some { repoName := repo_name, success := false, exitCode := code,
              output := some out, errorOutput := some errOut,
              resultsData := some (Json.obj [("error", Json.str ("Failed to parse JSON: " ++ msg))]),
              error := none }, trace)
    | ArtifactState.parsed j =>
      match test_success_of_data j with
      | none => (none, trace)
      | some b =>
        (some { repoName := repo_name, success := b, exitCode := code,
                output := some out, errorOutput := some errOut,
                resultsData := some j, error := none }, trace)

/-- Error result recorded when the docker liveness probe failed
(lines 218-224). -/
def dockerUnavailableResult (repo_name : String) : RunResult :=
  { repoName := repo_name, success := false,
    error := some "Docker is not available or not running. Please start Docker Desktop and try again.",
    exitCode := -1 }

/-- Error result recorded when git clone failed (lines 227-233). -/
def cloneFailedResult (repo_name : String) : RunResult :=
  { repoName := repo_name, success := false,
    error := some "Failed to clone repository", exitCode := -1 }

/-- Embedding of clone_and_test_repo (lines 213-237): check the stored
docker availability first, then clone, then run the compose pipeline. -/
def clone_and_test_repo (env : Env) (repo_url org_name repo_name : String) :
    Option RunResult × List Event :=
  if env.dockerAvailable then
    let cloneStep := clone_repo_locally env org_name repo_name
    if cloneStep.1 then
      let runStep := run_tests_with_compose env repo_name
      (runStep.1, cloneStep.2 ++ runStep.2)
    else
      (some (cloneFailedResult repo_name), cloneStep.2)
  else
    (some (dockerUnavailableResult repo_name), [])

/-- Remote URL constructed for a repository in run_tests_for_repos
(line 247). -/
def repo_url (org_name repo_name : String) : String :=
  "https://github.com/" ++ org_name ++ "/" ++ repo_name

/-- Embedding of run_tests_for_repos (lines 239-255): sequential loop
appending each result to the list in input order.  An uncaught
exception in one iteration propagates, aborting the loop. -/
def run_tests_for_repos (env : Env) (repo_names : List String) (org_name : String) :
    Option (List RunResult) × List Event :=
  match repo_names with
  | [] => (some [], [])
  | n :: rest =>
    let step := clone_and_test_repo env (repo_url org_name n) org_name n
    match step.1 with
    | none => (none, step.2)
    | some r =>
      let tail := run_tests_for_repos env rest org_name
      (Option.map (fun rs => r :: rs) tail.1, step.2 ++ tail.2)

/-- Final summary computed in main (lines 364-366): number of
successful results and total number of results. -/
def batch_summary (results : List RunResult) : Nat × Nat :=
  (results.countP (fun r => r.success), results.length)

/-- A convenient fully-healthy environment used to build concrete test
environments: docker up, no stale workspace, removals succeed, clones
succeed, build succeeds, exit code 0, empty streams, artifact absent. -/
def defaultEnv : Env where
  dockerAvailable := true
  workspaceExistsFor := fun _ => false
  removeAttemptOk := fun _ _ => true
  cloneOk := fun _ => true
  composeBuildFail := fun _ => none
  runProcExitCode := fun _ => 0
  runStdout := fun _ => ""
  runStderr := fun _ => ""
  artifact := fun _ => ArtifactState.absent

/-- C7: workspace removal on an existing directory makes at most 3
deletion attempts, clears write-protection bits recursively before
every attempt, sleeps the fixed one-second backoff exactly between
consecutive attempts, and when every attempt fails it returns false
(the function is total: no exception escapes). -/
theorem safe_remove_directory_retry_policy (attemptOk : Nat → Bool) :
    (safe_remove_directory true attemptOk).attempts ≤ 3 ∧
    (safe_remove_directory true attemptOk).chmodSweeps =
      (safe_remove_directory true attemptOk).attempts ∧
    (safe_remove_directory true attemptOk).sleeps =
      (safe_remove_directory true attemptOk).attempts - 1 ∧
    ((∀ i, i < 3 → attemptOk i = false) →
      (safe_remove_directory true attemptOk).success = false ∧
      (safe_remove_directory true attemptOk).attempts = 3) := by
  cases h0 : attemptOk 0 <;> cases h1 : attemptOk 1 <;> cases h2 : attemptOk 2 <;>
    simp [safe_remove_directory, safe_remove_go, h0, h1, h2] <;>
    first
      | exact ⟨0, by norm_num, h0⟩
      | exact ⟨1, by norm_num, h1⟩
      | exact ⟨2, by norm_num, h2⟩

/-- Witness for C7: with every removal attempt failing, the call
reports failure after exactly 3 attempts. -/
theorem safe_remove_directory_retry_policy_witness :
    (safe_remove_directory true (fun _ => false)).success = false ∧
    (safe_remove_directory true (fun _ => false)).attempts = 3 :=
  (safe_remove_directory_retry_policy (fun _ => false)).2.2.2
    (fun _ _ => rfl)

/-- C1: when the results artifact parses as a JSON object and the
looked-up counts (defaulting to 0 when absent) are numbers, the run is
successful exactly when total > 0, failed = 0 and error = 0; in
particular total = 0 forces success = false. -/
theorem run_success_iff_counts (env : Env) (repo : String)
    (fields : List (String × Json)) (t f e : Int)
    (hb : env.composeBuildFail repo = none)
    (ha : env.artifact repo = ArtifactState.parsed (Json.obj fields))
    (ht : pyAsNum (objGetD fields "total" (Json.num 0)) = some t)
    (hf : pyAsNum (objGetD fields "failed" (Json.num 0)) = some f)
    (he : pyAsNum (objGetD fields "error" (Json.num 0)) = some e) :
    (Option.map RunResult.success (run_tests_with_compose env repo).1 = some true
      ↔ (0 < t ∧ f = 0 ∧ e = 0)) ∧
    (t = 0 →
      Option.map RunResult.success (run_tests_with_compose env repo).1 = some false) := by
  have hpf : pyEqZero (objGetD fields "failed" (Json.num 0)) = (f == 0) := by
    simp [pyEqZero, hf]
  have hpe : pyEqZero (objGetD fields "error" (Json.num 0)) = (e == 0) := by
    simp [pyEqZero, he]
  simp only [run_tests_with_compose, hb, ha, test_success_of_data, ht, hpf, hpe,
    Option.map_some']
  constructor
  · by_cases h : 0 < t <;> simp [h]
  · intro h
    subst h
    simp

/-- Witness for C1: an artifact object with total = 3 and the failed
and error fields absent yields a successful run. -/
theorem run_success_iff_counts_witness :
    (Option.map RunResult.success
        (run_tests_with_compose
          { defaultEnv with
            artifact := fun _ =>
              ArtifactState.parsed (Json.obj [("total", Json.num 3)]) } "a").1
        = some true
      ↔ (0 < (3 : Int) ∧ (0 : Int) = 0 ∧ (0 : Int) = 0)) ∧
    ((3 : Int) = 0 →
      Option.map RunResult.success
        (run_tests_with_compose
          { defaultEnv with
            artifact := fun _ =>
              ArtifactState.parsed (Json.obj [("total", Json.num 3)]) } "a").1
        = some false) :=
  run_success_iff_counts _ "a" [("total", Json.num 3)] 3 0 0 rfl rfl rfl rfl rfl

/-- C2: the success field is a function of the results artifact alone:
replacing the sandbox process exit code (and captured streams) by
anything else leaves success unchanged; concretely, exit code 1 with a
clean artifact of 5 tests still gives success = true, and exit code 0
with 2 failures gives success = false. -/
theorem success_ignores_exit_code (env : Env) (ec : String → Int)
    (so se : String → String) (repo : String) :
    Option.map RunResult.success
        (run_tests_with_compose
          { env with runProcExitCode := ec, runStdout := so, runStderr := se } repo).1
      = Option.map RunResult.success (run_tests_with_compose env repo).1 ∧
    Option.map RunResult.success
        (run_tests_with_compose
          { defaultEnv with
            runProcExitCode := fun _ => 1,
            artifact := fun _ => ArtifactState.parsed (Json.obj
              [("total", Json.num 5), ("failed", Json.num 0), ("error", Json.num 0)]) }
          "r").1 = some true ∧
    Option.map RunResult.success
        (run_tests_with_compose
          { defaultEnv with
            runProcExitCode := fun _ => 0,
            artifact := fun _ => ArtifactState.parsed (Json.obj
              [("total", Json.num 5), ("failed", Json.num 2), ("error", Json.num 0)]) }
          "r").1 = some false := by
  refine ⟨?_, rfl, rfl⟩
  cases hb : env.composeBuildFail repo with
  | some p => simp [run_tests_with_compose, hb]
  | none =>
    cases ha : env.artifact repo with
    | absent => simp [run_tests_with_compose, hb, ha]
    | malformed msg => simp [run_tests_with_compose, hb, ha]
    | parsed j =>
      cases hs : test_success_of_data j <;>
        simp [run_tests_with_compose, hb, ha, hs]

/-- C8: after the sandbox run, a missing results artifact yields the
error dict with message Results file not created and success = false,
and a JSON parse failure yields the error dict carrying the parse
error detail and success = false; both branches return a value rather
than raising. -/
theorem artifact_missing_or_malformed_handled (env : Env) (repo : String)
    (hb : env.composeBuildFail repo = none) :
    (env.artifact repo = ArtifactState.absent →
      (run_tests_with_compose env repo).1 = some
        { repoName := repo, success := false,
          exitCode := env.runProcExitCode repo,
          output := some (env.runStdout repo),
          errorOutput := some (env.runStderr repo),
          resultsData := some (Json.obj [("error", Json.str "Results file not created")]),
          error := none }) ∧
    (∀ msg, env.artifact repo = ArtifactState.malformed msg →
      (run_tests_with_compose env repo).1 = some
        { repoName := repo, success := false,
          exitCode := env.runProcExitCode repo,
          output := some (env.runStdout repo),
          errorOutput := some (env.runStderr repo),
          resultsData := some (Json.obj
            [("error", Json.str ("Failed to parse JSON: " ++ msg))]),
          error := none }) := by
  constructor
  · intro ha
    simp [run_tests_with_compose, hb, ha]
  · intro msg ha
    simp [run_tests_with_compose, hb, ha]

/-- Witness for C8: in an environment whose artifact is missing, the
run returns the documented error result. -/
theorem artifact_missing_or_malformed_handled_witness :
    (run_tests_with_compose defaultEnv "a").1 = some
      { repoName := "a", success := false, exitCode := 0,
        output := some "", errorOutput := some "",
        resultsData := some (Json.obj [("error", Json.str "Results file not created")]),
        error := none } :=
  (artifact_missing_or_malformed_handled defaultEnv "a" rfl).1 rfl

/-- C10: a results artifact that parses to a non-object JSON value
leaves success = false, stores the parsed value unchanged in
resultsData, and adds no error field. -/
theorem non_object_artifact_not_successful (env : Env) (repo : String) (j : Json)
    (hb : env.composeBuildFail repo = none)
    (ha : env.artifact repo = ArtifactState.parsed j)
    (hno : ∀ fields, j ≠ Json.obj fields) :
    (run_tests_with_compose env repo).1 = some
      { repoName := repo, success := false,
        exitCode := env.runProcExitCode repo,
        output := some (env.runStdout repo),
        errorOutput := some (env.runStderr repo),
        resultsData := some j, error := none } := by
  have hs : test_success_of_data j = some false := by
    cases j with
    | obj fields => exact absurd rfl (hno fields)
    | null => rfl
    | bool b => rfl
    | num n => rfl
    | str s => rfl
    | arr elems => rfl
  simp [run_tests_with_compose, hb, ha, hs]

/-- Witness for C10: an artifact parsing to an empty JSON array gives
success = false with the array preserved as resultsData. -/
theorem non_object_artifact_not_successful_witness :
    (run_tests_with_compose
        { defaultEnv with
          artifact := fun _ => ArtifactState.parsed (Json.arr []) } "a").1 = some
      { repoName := "a", success := false, exitCode := 0,
        output := some "", errorOutput := some "",
        resultsData := some (Json.arr []), error := none } :=
  non_object_artifact_not_successful _ "a" (Json.arr []) rfl rfl
    (fun fields h => Json.noConfusion h)

/-- Environment in which every git clone fails while docker is up. -/
def envAllCloneFail : Env := { defaultEnv with cloneOk := fun _ => false }

/-- C3: whenever the batch loop returns a result list, that list has
exactly one entry per input name, and the i-th entry is the RunResult
of the i-th name: nothing dropped, duplicated or reordered. -/
theorem run_tests_for_repos_preserves_order (env : Env) (org : String)
    (names : List String) (res : List RunResult)
    (h : (run_tests_for_repos env names org).1 = some res) :
    res.length = names.length ∧
    ∀ i : Nat, res[i]? =
      (names[i]?).bind (fun n => (clone_and_test_repo env (repo_url org n) org n).1) := by
  induction names generalizing res with
  | nil =>
    simp [run_tests_for_repos] at h
    subst h
    simp
  | cons n rest ih =>
    cases hr : (clone_and_test_repo env (repo_url org n) org n).1 with
    | none => simp [run_tests_for_repos, hr] at h
    | some r =>
      cases ht : (run_tests_for_repos env rest org).1 with
      | none => simp [run_tests_for_repos, hr, ht] at h
      | some rs =>
        simp only [run_tests_for_repos, hr, ht, Option.map_some', Option.some.injEq] at h
        subst h
        obtain ⟨hlen, hidx⟩ := ih rs ht
        refine ⟨by simp [hlen], ?_⟩
        intro i
        cases i with
        | zero => simp [hr]
        | succ j => simpa using hidx j

/-- Witness for C3: a batch of two repositories whose clones both fail
still returns a two-entry list aligned with the input names. -/
theorem run_tests_for_repos_preserves_order_witness :
    ([cloneFailedResult "a", cloneFailedResult "b"] : List RunResult).length =
      (["a", "b"] : List String).length ∧
    ∀ i : Nat, ([cloneFailedResult "a", cloneFailedResult "b"] : List RunResult)[i]? =
      ((["a", "b"] : List String)[i]?).bind
        (fun n => (clone_and_test_repo envAllCloneFail (repo_url "o" n) "o" n).1) :=
  run_tests_for_repos_preserves_order envAllCloneFail "o" ["a", "b"]
    [cloneFailedResult "a", cloneFailedResult "b"] rfl

/-- C4: a failing clone (with docker up) records exactly the
Failed to clone repository result, never reaches the compose build or
run steps, and leaves the rest of the batch processed as usual. -/
theorem clone_failure_isolated (env : Env) (url org repo : String)
    (rest : List String)
    (hd : env.dockerAvailable = true) (hc : env.cloneOk repo = false) :
    (clone_and_test_repo env url org repo).1 = some (cloneFailedResult repo) ∧
    Event.composeBuild repo ∉ (clone_and_test_repo env url org repo).2 ∧
    Event.composeRun repo ∉ (clone_and_test_repo env url org repo).2 ∧
    (run_tests_for_repos env (repo :: rest) org).1 =
      Option.map (fun rs => cloneFailedResult repo :: rs)
        (run_tests_for_repos env rest org).1 := by
  have hstep : (clone_and_test_repo env (repo_url org repo) org repo).1 =
      some (cloneFailedResult repo) := by
    simp [clone_and_test_repo, hd, clone_repo_locally, hc]
  refine ⟨by simp [clone_and_test_repo, hd, clone_repo_locally, hc], ?_, ?_, ?_⟩
  · cases hw : env.workspaceExistsFor repo <;>
      simp [clone_and_test_repo, hd, clone_repo_locally, hc, hw]
  · cases hw : env.workspaceExistsFor repo <;>
      simp [clone_and_test_repo, hd, clone_repo_locally, hc, hw]
  · cases ht : (run_tests_for_repos env rest org).1 <;>
      simp [run_tests_for_repos, hstep, ht]

/-- Witness for C4: with both clones failing, repository a records the
clone-failure result, invokes no compose step, and the loop continues
to repository b. -/
theorem clone_failure_isolated_witness :
    (clone_and_test_repo envAllCloneFail (repo_url "o" "a") "o" "a").1 =
      some (cloneFailedResult "a") ∧
    Event.composeBuild "a" ∉
      (clone_and_test_repo envAllCloneFail (repo_url "o" "a") "o" "a").2 ∧
    Event.composeRun "a" ∉
      (clone_and_test_repo envAllCloneFail (repo_url "o" "a") "o" "a").2 ∧
    (run_tests_for_repos envAllCloneFail ["a", "b"] "o").1 =
      Option.map (fun rs => cloneFailedResult "a" :: rs)
        (run_tests_for_repos envAllCloneFail ["b"] "o").1 :=
  clone_failure_isolated envAllCloneFail (repo_url "o" "a") "o" "a" ["b"] rfl rfl

/-- Environment whose docker liveness probe failed. -/
def envNoDocker : Env := { defaultEnv with dockerAvailable := false }

/-- Counterexample to C5: with docker unavailable and two input
repositories, the batch loop does not return an empty or aborted
summary; it returns a two-entry list, recording the unavailability
once per repository, so the summary counts 0 successes out of 2. -/
theorem sandbox_unavailable_counterexample :
    (run_tests_for_repos envNoDocker ["a", "b"] "o").1 =
      some [dockerUnavailableResult "a", dockerUnavailableResult "b"] ∧
    (run_tests_for_repos envNoDocker ["a", "b"] "o").1 ≠ some [] ∧
    Option.map batch_summary (run_tests_for_repos envNoDocker ["a", "b"] "o").1 =
      some (0, 2) := by
  have hval : (run_tests_for_repos envNoDocker ["a", "b"] "o").1 =
      some [dockerUnavailableResult "a", dockerUnavailableResult "b"] := rfl
  refine ⟨hval, ?_, rfl⟩
  rw [hval]
  intro h
  simp at h

/-- C5 amended: when the docker probe failed, no clone (nor any other
external operation) is attempted for any repository, and the batch
still produces one docker-unavailable RunResult per input name instead
of aborting with an empty summary. -/
theorem sandbox_unavailable_no_clone (env : Env) (names : List String)
    (org : String) (hd : env.dockerAvailable = false) :
    (run_tests_for_repos env names org).1 =
      some (names.map dockerUnavailableResult) ∧
    (run_tests_for_repos env names org).2 = [] := by
  induction names with
  | nil => simp [run_tests_for_repos]
  | cons n rest ih =>
    have hstep : clone_and_test_repo env (repo_url org n) org n =
        (some (dockerUnavailableResult n), []) := by
      simp [clone_and_test_repo, hd]
    simp [run_tests_for_repos, hstep, ih.1, ih.2]

/-- Witness for the amended C5: a one-repository batch with docker
down yields the docker-unavailable result and an empty trace. -/
theorem sandbox_unavailable_no_clone_witness :
    (run_tests_for_repos envNoDocker ["a"] "o").1 =
      some ((["a"] : List String).map dockerUnavailableResult) ∧
    (run_tests_for_repos envNoDocker ["a"] "o").2 = [] :=
  sandbox_unavailable_no_clone envNoDocker ["a"] "o" rfl

/-- Environment with a stale workspace whose removal always fails. -/
def envStaleWorkspace : Env :=
  { defaultEnv with
    workspaceExistsFor := fun _ => true,
    removeAttemptOk := fun _ _ => false }

/-- Counterexample to C6: with a pre-existing workspace whose removal
fails every attempt, git clone is still invoked (after the failed
removal) and the clone reports success: the clone is not aborted. -/
theorem clone_into_uncleaned_workspace_counterexample :
    Event.removeWorkspace "a" false ∈ (clone_repo_locally envStaleWorkspace "o" "a").2 ∧
    Event.gitClone "a" ∈ (clone_repo_locally envStaleWorkspace "o" "a").2 ∧
    (clone_repo_locally envStaleWorkspace "o" "a").1 = true := by
  have hval : (clone_repo_locally envStaleWorkspace "o" "a").2 =
      [Event.removeWorkspace "a" false, Event.gitClone "a"] := rfl
  refine ⟨?_, ?_, rfl⟩ <;> rw [hval] <;> simp

/-- C6 amended: when a pre-existing workspace directory is found, its
tolerant removal is attempted first and git clone is then invoked
unconditionally, whether or not the removal succeeded (the code warns
and continues anyway on removal failure). -/
theorem clone_proceeds_after_removal (env : Env) (org repo : String)
    (hw : env.workspaceExistsFor repo = true) :
    (clone_repo_locally env org repo).2 =
      [Event.removeWorkspace repo
        (safe_remove_directory true (env.removeAttemptOk repo)).success,
       Event.gitClone repo] ∧
    (clone_repo_locally env org repo).1 = env.cloneOk repo := by
  simp [clone_repo_locally, hw]

/-- Witness for the amended C6: the stale-workspace environment shows
the removal event followed by the clone invocation. -/
theorem clone_proceeds_after_removal_witness :
    (clone_repo_locally envStaleWorkspace "o" "a").2 =
      [Event.removeWorkspace "a"
        (safe_remove_directory true (envStaleWorkspace.removeAttemptOk "a")).success,
       Event.gitClone "a"] ∧
    (clone_repo_locally envStaleWorkspace "o" "a").1 = envStaleWorkspace.cloneOk "a" :=
  clone_proceeds_after_removal envStaleWorkspace "o" "a" rfl

/-- Environment whose compose build raises CalledProcessError with
returncode 2 and stderr boom. -/
def envBuildFail : Env :=
  { defaultEnv with composeBuildFail := fun _ => some (2, "boom") }

/-- Counterexample to C9: a compose build failure with returncode 2 is
recorded with exitCode = 2, not the claimed -1. -/
theorem compose_build_failure_exit_code_counterexample :
    (run_tests_with_compose envBuildFail "a").1 = some
      { repoName := "a", success := false, exitCode := 2,
        error := some "Docker compose failed: boom" } ∧
    Option.map RunResult.exitCode (run_tests_with_compose envBuildFail "a").1 ≠
      some (-1) := by
  refine ⟨rfl, ?_⟩
  have hval : Option.map RunResult.exitCode (run_tests_with_compose envBuildFail "a").1 =
      some 2 := rfl
  rw [hval]
  intro h
  exact absurd (Option.some.inj h) (by norm_num)

/-- C9 amended: a compose build failure is captured into the RunResult
error field as Docker compose failed with the stderr detail, success =
false, and exitCode equal to the returncode of the failed build
process; the batch continues to the next repository. -/
theorem compose_build_failure_recorded (env : Env) (repo org : String)
    (code : Int) (stderrMsg : String) (rest : List String)
    (hb : env.composeBuildFail repo = some (code, stderrMsg))
    (hd : env.dockerAvailable = true) (hc : env.cloneOk repo = true) :
    (run_tests_with_compose env repo).1 = some
      { repoName := repo, success := false, exitCode := code,
        error := some ("Docker compose failed: " ++ stderrMsg) } ∧
    (run_tests_for_repos env (repo :: rest) org).1 =
      Option.map (fun rs =>
        { repoName := repo, success := false, exitCode := code,
          error := some ("Docker compose failed: " ++ stderrMsg) } :: rs)
        (run_tests_for_repos env rest org).1 := by
  have h1 : (run_tests_with_compose env repo).1 = some
      { repoName := repo, success := false, exitCode := code,
        error := some ("Docker compose failed: " ++ stderrMsg) } := by
    simp [run_tests_with_compose, hb]
  have hstep : (clone_and_test_repo env (repo_url org repo) org repo).1 = some
      { repoName := repo, success := false, exitCode := code,
        error := some ("Docker compose failed: " ++ stderrMsg) } := by
    simp [clone_and_test_repo, hd, clone_repo_locally, hc, h1]
  refine ⟨h1, ?_⟩
  cases ht : (run_tests_for_repos env rest org).1 <;>
    simp [run_tests_for_repos, hstep, ht]

/-- Witness for the amended C9: the build-failure environment records
exitCode 2 with the compose error message and the loop continues. -/
theorem compose_build_failure_recorded_witness :
    (run_tests_with_compose envBuildFail "b").1 = some
      { repoName := "b", success := false, exitCode := 2,
        error := some ("Docker compose failed: " ++ "boom") } ∧
    (run_tests_for_repos envBuildFail ["b"] "o").1 =
      Option.map (fun rs =>
        { repoName := "b", success := false, exitCode := 2,
          error := some ("Docker compose failed: " ++ "boom") } :: rs)
        (run_tests_for_repos envBuildFail [] "o").1 :=
  compose_build_failure_recorded envBuildFail "b" "o" 2 "boom" [] rfl rfl rfl

end RepoEval
